import Mathlib

/-!
Verification development for the `tts_server.py` service of the
Anime-desktop-waifu repository: a shallow embedding of the FastAPI
TTS server (`src/tts/tts_server.py`) — its request model, backend
adapters, dispatch logic and temp-file lifecycle — together with
theorems settling the specification's claims about it.

Modelling conventions:
* Python exceptions are values of `PyErr`, distinguished by type the way
  the server's `except` clauses distinguish them (`ImportError` vs any
  other `Exception`).
* The behaviours of external collaborators (the `styletts2` package, the
  OS speech API, `sf.info`, `os.unlink`) are inputs of the handler,
  collected in environment records, so the handler is a pure function of
  the request, the wrapper state and the environment.
* The per-request temporary file is the only file the handler touches;
  its state is `Option (List Nat)` — `none` when absent from disk,
  `some bytes` when present with those contents (bytes are `Nat < 256`).
* `duration` is a float in the source; no claim constrains its value, so
  it is modelled as an `Int` carried through unchanged.
-/

/-- The engine selector: the two values admitted by the pydantic
`Literal["system", "styletts2"]` field of `SynthesisRequest`. -/
inductive Engine where
  | system
  | styletts2
deriving DecidableEq, Repr

/-- The request body of `POST /synthesize` after pydantic validation
(`class SynthesisRequest`).  `style_params` is an opaque, unvalidated
pass-through never read by the handler, so it is omitted. -/
structure SynthesisRequest where
  text : String
  engine : Engine
deriving DecidableEq, Repr

/-- Pydantic validation of the raw `engine` field: `none` models an
omitted field (defaulted to `"system"`), any string other than the two
`Literal` alternatives fails validation (FastAPI then answers 422
without invoking the handler). -/
def parseEngine : Option String → Option Engine
  | none => some .system
  | some "system" => some .system
  | some "styletts2" => some .styletts2
  | some _ => none

/-- A Python exception as the server discriminates them: `ImportError`
versus any other `Exception`, each carrying its message (`str(e)`). -/
inductive PyErr where
  | importError (msg : String)
  | other (msg : String)
deriving DecidableEq, Repr

/-- The message attached to an exception, i.e. `str(e)`. -/
def PyErr.toMsg : PyErr → String
  | .importError m => m
  | .other m => m

/-- The mutable state of `StyleTTS2Wrapper`: `self.model` (a handle,
modelled as `Option Unit`) and `self.ready`. -/
structure WrapperState where
  model : Option Unit
  ready : Bool
deriving DecidableEq, Repr

/-- The state `StyleTTS2Wrapper.__init__` establishes:
`self.model = None`, `self.ready = False`. -/
def initWrapper : WrapperState := ⟨none, false⟩

/-- Behaviour of the external styletts2 collaborators during one request:
whether `from styletts2 import tts` succeeds, what `tts.StyleTTS2()`
does, and what `self.model.inference(text, output_wav_file=...)` does —
its exception outcome and the temp-file state it leaves behind. -/
structure NeuralEnv where
  importOk : Bool
  constructResult : Except PyErr Unit
  inferenceResult : Except PyErr Unit
  inferenceFile : Option (List Nat)

/-- `StyleTTS2Wrapper.load`: imports the package, instantiates the model
and sets `ready`.  An `ImportError` (from the import itself, or from the
constructor, both caught by the same `except ImportError` clause) is
replaced by `ImportError("StyleTTS2 not installed")`; any other
exception is re-raised unchanged.  On failure no assignment to
`self.model`/`self.ready` has happened, so the caller's state is kept. -/
def wrapperLoad (env : NeuralEnv) : Except PyErr WrapperState :=
  if env.importOk then
    match env.constructResult with
    | .ok _ => .ok ⟨some (), true⟩
    | .error (.importError _) => .error (.importError "StyleTTS2 not installed")
    | .error (.other m) => .error (.other m)
  else .error (.importError "StyleTTS2 not installed")

/-- Result of one `StyleTTS2Wrapper.synthesize` call: the exception
outcome, the wrapper state afterwards, the temp-file state afterwards,
and whether `self.load()` was invoked. -/
structure WrapperOutcome where
  result : Except PyErr Unit
  state : WrapperState
  file : Option (List Nat)
  loadAttempted : Bool
deriving Repr

/-- `StyleTTS2Wrapper.synthesize`: `if not self.ready: self.load()`,
then `self.model.inference(text, output_wav_file=output_file)`.  A load
failure propagates before inference runs, leaving the file untouched. -/
def wrapperSynthesize (env : NeuralEnv) (st : WrapperState)
    (file : Option (List Nat)) : WrapperOutcome :=
  if st.ready then
    { result := env.inferenceResult, state := st,
      file := env.inferenceFile, loadAttempted := false }
  else
    match wrapperLoad env with
    | .error e =>
      { result := .error e, state := st, file := file, loadAttempted := true }
    | .ok st' =>
      { result := env.inferenceResult, state := st',
        file := env.inferenceFile, loadAttempted := true }

/-- Behaviour of one `SystemTTS.synthesize` call (the SAPI5 adapter):
its exception outcome and the temp-file state it leaves behind. -/
structure SystemEnv where
  result : Except PyErr Unit
  fileAfter : Option (List Nat)

/-- Everything outside the handler that one `POST /synthesize` request
observes: the two backend behaviours, the `sf.info` metadata probe
(`none` models the probe raising), and whether `os.unlink` raises. -/
structure HandlerEnv where
  neural : NeuralEnv
  system : SystemEnv
  probe : Option (Nat × Int)
  unlinkFails : Bool

/-- An HTTP response of the handler: the success JSON body, or an
`HTTPException` with its status code and detail. -/
inductive Response where
  | ok (audio : String) (sample_rate : Nat) (duration : Int) (engine : Engine)
  | error (status : Nat) (detail : String)
deriving DecidableEq, Repr

/-- Status code of a response (200 on success). -/
def Response.status : Response → Nat
  | .ok _ _ _ _ => 200
  | .error s _ => s

/-- Observable outcome of one `POST /synthesize` request: the response,
the wrapper state afterwards, the temp-file state after the `finally`
block, whether a temp file was ever created, and which backend adapters
were invoked. -/
structure HandlerOutcome where
  response : Response
  wrapper : WrapperState
  file : Option (List Nat)
  tempCreated : Bool
  sysInvoked : Bool
  neuralInvoked : Bool
deriving Repr

/-- The `finally` block: `if temp_file and os.path.exists(temp_file):
try: os.unlink(temp_file) except: pass` — delete the file if it exists,
swallowing a deletion failure. -/
def finalizeTemp (env : HandlerEnv) (file : Option (List Nat)) :
    Option (List Nat) :=
  match file with
  | none => none
  | some bs => if env.unlinkFails then some bs else none

-- Base64, as `base64.b64encode(...).decode("utf-8")` produces it.

/-- The base64 alphabet: sextet (0–63) to character. -/
def b64Char (n : Nat) : Char :=
  if n < 26 then Char.ofNat (65 + n)
  else if n < 52 then Char.ofNat (97 + (n - 26))
  else if n < 62 then Char.ofNat (48 + (n - 52))
  else if n = 62 then '+'
  else '/'

/-- Inverse of the base64 alphabet. -/
def b64CharInv (c : Char) : Nat :=
  if 65 ≤ c.toNat ∧ c.toNat ≤ 90 then c.toNat - 65
  else if 97 ≤ c.toNat ∧ c.toNat ≤ 122 then c.toNat - 97 + 26
  else if 48 ≤ c.toNat ∧ c.toNat ≤ 57 then c.toNat - 48 + 52
  else if c = '+' then 62
  else 63

/-- Base64 encoding of a byte list, three bytes to four characters,
with `=` padding exactly as `base64.b64encode` emits it. -/
def b64EncodeChunks : List Nat → List Char
  | [] => []
  | [b0] =>
    [b64Char (b0 / 4), b64Char (b0 % 4 * 16), '=', '=']
  | [b0, b1] =>
    [b64Char (b0 / 4), b64Char (b0 % 4 * 16 + b1 / 16),
     b64Char (b1 % 16 * 4), '=']
  | b0 :: b1 :: b2 :: rest =>
    b64Char (b0 / 4) :: b64Char (b0 % 4 * 16 + b1 / 16) ::
    b64Char (b1 % 16 * 4 + b2 / 64) :: b64Char (b2 % 64) ::
    b64EncodeChunks rest

/-- Base64 decoding, the inverse direction used to state the round-trip
property of the `audio` field. -/
def b64DecodeChunks : List Char → List Nat
  | c0 :: c1 :: c2 :: c3 :: rest =>
    if c2 = '=' then
      [b64CharInv c0 * 4 + b64CharInv c1 / 16]
    else if c3 = '=' then
      [b64CharInv c0 * 4 + b64CharInv c1 / 16,
       b64CharInv c1 % 16 * 16 + b64CharInv c2 / 4]
    else
      (b64CharInv c0 * 4 + b64CharInv c1 / 16) ::
      (b64CharInv c1 % 16 * 16 + b64CharInv c2 / 4) ::
      (b64CharInv c2 % 4 * 64 + b64CharInv c3) ::
      b64DecodeChunks rest
  | _ => []

/-- The base64 string placed in the response's `audio` field. -/
def base64Encode (bs : List Nat) : String := ⟨b64EncodeChunks bs⟩

/-- Decoding of a base64 string back to bytes. -/
def base64Decode (s : String) : List Nat := b64DecodeChunks s.data

/-- The validation test `not request.text.strip()`: Python's `strip()`
result is falsy exactly when every character of the text is whitespace
(in particular when the text is empty). -/
def isBlank (s : String) : Bool := s.data.all Char.isWhitespace

/-- The code after a backend call returns without raising: the
existence/size check (`500 "Audio generation failed (empty output)"` if
the file is missing or empty), the read-back and base64 encoding of the
whole file, the best-effort `sf.info` probe (defaults `24000`/`0` on
probe failure), and the success body.  The `file` field is the state at
entry to the `finally` block. -/
def afterBackend (engine : Engine) (wst : WrapperState)
    (probe : Option (Nat × Int)) (file : Option (List Nat))
    (sysI neurI : Bool) : HandlerOutcome :=
  match file with
  | none =>
    { response := .error 500 "Audio generation failed (empty output)",
      wrapper := wst, file := none, tempCreated := true,
      sysInvoked := sysI, neuralInvoked := neurI }
  | some bs =>
    if bs.length = 0 then
      { response := .error 500 "Audio generation failed (empty output)",
        wrapper := wst, file := some bs,
        tempCreated := true, sysInvoked := sysI, neuralInvoked := neurI }
    else
      { response := .ok (base64Encode bs)
          (match probe with | some p => p.1 | none => 24000)
          (match probe with | some p => p.2 | none => 0) engine,
        wrapper := wst, file := some bs,
        tempCreated := true, sysInvoked := sysI, neuralInvoked := neurI }

/-- The `try` block of `async def synthesize`, preceded by the empty-text
validation that runs before any file is created: temp-file creation (an
existing zero-byte file); dispatch on the engine selector —
`"styletts2"` to the neural wrapper with `ImportError ↦ 503 "StyleTTS2
not installed"` and any other exception `↦ 500 str(e)`, anything else to
the SAPI5 adapter whose exceptions reach the generic
`except Exception ↦ 500 str(e)` — then the post-backend read-back.  The
resulting `file` field is the temp-file state at entry to `finally`. -/
def handleCore (req : SynthesisRequest) (st : WrapperState)
    (ne : NeuralEnv) (se : SystemEnv) (probe : Option (Nat × Int)) :
    HandlerOutcome :=
  if isBlank req.text then
    { response := .error 400 "Text cannot be empty", wrapper := st,
      file := none, tempCreated := false,
      sysInvoked := false, neuralInvoked := false }
  else
    match req.engine with
    | .styletts2 =>
      let w := wrapperSynthesize ne st (some [])
      match w.result with
      | .error (.importError _) =>
        { response := .error 503 "StyleTTS2 not installed",
          wrapper := w.state, file := w.file,
          tempCreated := true, sysInvoked := false, neuralInvoked := true }
      | .error (.other m) =>
        { response := .error 500 m,
          wrapper := w.state, file := w.file,
          tempCreated := true, sysInvoked := false, neuralInvoked := true }
      | .ok _ => afterBackend .styletts2 w.state probe w.file false true
    | .system =>
      match se.result with
      | .error e =>
        { response := .error 500 e.toMsg, wrapper := st,
          file := se.fileAfter,
          tempCreated := true, sysInvoked := true, neuralInvoked := false }
      | .ok _ => afterBackend .system st probe se.fileAfter true false

/-- The `finally` block applied to the try-block outcome: when a temp
file was created, delete it best-effort; the response and every other
observable are untouched. -/
def applyFinally (env : HandlerEnv) (o : HandlerOutcome) : HandlerOutcome :=
  if o.tempCreated then { o with file := finalizeTemp env o.file } else o

/-- The complete `POST /synthesize` handler: validation and `try` block,
then the `finally` cleanup. -/
def handleSynthesize (req : SynthesisRequest) (st : WrapperState)
    (env : HandlerEnv) : HandlerOutcome :=
  applyFinally env (handleCore req st env.neural env.system env.probe)

/-- The full request path including pydantic validation of the raw
`engine` field: an invalid value is answered 422 by FastAPI before the
handler (and hence any adapter) runs. -/
def handleRaw (text : String) (rawEngine : Option String)
    (st : WrapperState) (env : HandlerEnv) : HandlerOutcome :=
  match parseEngine rawEngine with
  | none =>
    { response := .error 422 "Input should be system or styletts2",
      wrapper := st, file := none, tempCreated := false,
      sysInvoked := false, neuralInvoked := false }
  | some e => handleSynthesize ⟨text, e⟩ st env

-- The /health endpoint.

/-- The process-wide `active_engine_type` label (informational only,
never mutated). -/
def active_engine_type : String := "system"

/-- The response model of `GET /health`. -/
structure HealthResponse where
  status : String
  active_engine : String
  available_engines : List String
deriving DecidableEq, Repr

/-- `health_check`: starts from `["system"]` and appends `"styletts2"`
exactly when `import styletts2` succeeds at call time — the probe is the
argument, taken fresh on every call, never cached. -/
def health_check (importOk : Bool) : HealthResponse :=
  { status := "ready",
    active_engine := active_engine_type,
    available_engines := ["system"] ++ if importOk then ["styletts2"] else [] }

-- The SAPI5 voice-selection logic of SystemTTS.synthesize.

/-- ASCII case folding, the effect of Python's `str.lower()` on the
ASCII voice descriptions SAPI enumerates. -/
def lowerChar (c : Char) : Char :=
  if 65 ≤ c.toNat ∧ c.toNat ≤ 90 then Char.ofNat (c.toNat + 32) else c

/-- The voice filter of `SystemTTS.synthesize`: a case-insensitive
substring check of `"zira"` or `"female"` against the voice
description (`'zira' in desc.lower() or 'female' in desc.lower()`). -/
def descMatches (desc : String) : Bool :=
  decide ("zira".data <:+: desc.data.map lowerChar) ||
  decide ("female".data <:+: desc.data.map lowerChar)

/-- The SAPI default speaking rate (midpoint of the documented
`-10 .. 10` range noted in the source comment). -/
def sapiDefaultRate : Int := 0

/-- Voice configuration chosen by `SystemTTS.synthesize` before
speaking: the first enumerated voice whose description matches
(`none` keeps the engine's default voice), and `voice.Rate = 1`. -/
structure VoiceConfig where
  voice : Option String
  rate : Int
deriving DecidableEq, Repr

/-- The selection loop of `SystemTTS.synthesize`: iterate the enumerated
voice descriptions in order, stop at the first match, fall back to the
default voice when none matches; set rate 1. -/
def selectVoiceConfig (voices : List String) : VoiceConfig :=
  { voice := voices.find? descMatches, rate := 1 }

-- Concurrency model for the lazy-load prologue of
-- StyleTTS2Wrapper.synthesize: `if not self.ready: self.load()`.
-- The read of `self.ready` and the body of `self.load()` are separate
-- non-atomic steps (the GIL is released many times inside a load), and
-- the source takes no lock around them.

/-- Program counter of one thread running the lazy-load prologue:
about to read `self.ready`; has read it as `False` and is about to run
`self.load()`; or finished. -/
inductive ThreadPC where
  | atCheck
  | atLoad
  | done
deriving DecidableEq, Repr

/-- Shared wrapper state plus the two threads' program counters.
`loadCount` counts completed executions of `self.load()`. -/
structure RaceState where
  ready : Bool
  loadCount : Nat
  pc1 : ThreadPC
  pc2 : ThreadPC
deriving DecidableEq, Repr

/-- Both threads about to perform first use of the just-initialized
wrapper (`ready = False`, no load has happened). -/
def raceInit : RaceState := ⟨false, 0, .atCheck, .atCheck⟩

/-- Thread identifier for the interleaving schedule. -/
inductive Tid where
  | t1
  | t2
deriving DecidableEq, Repr

/-- One atomic step of a thread: the check reads `ready` and either
skips the load or commits to it; the load step completes `self.load()`,
setting `ready` and counting one load. -/
def threadStep (pc : ThreadPC) (ready : Bool) (loadCount : Nat) :
    ThreadPC × Bool × Nat :=
  match pc with
  | .atCheck => if ready then (.done, ready, loadCount) else (.atLoad, ready, loadCount)
  | .atLoad => (.done, true, loadCount + 1)
  | .done => (.done, ready, loadCount)

/-- Run one step of the scheduled thread against the shared state. -/
def raceStep (t : Tid) (s : RaceState) : RaceState :=
  match t with
  | .t1 =>
    match threadStep s.pc1 s.ready s.loadCount with
    | (pc, r, c) => { s with pc1 := pc, ready := r, loadCount := c }
  | .t2 =>
    match threadStep s.pc2 s.ready s.loadCount with
    | (pc, r, c) => { s with pc2 := pc, ready := r, loadCount := c }

/-- Run a whole interleaving schedule. -/
def runSched (sched : List Tid) (s : RaceState) : RaceState :=
  sched.foldl (fun s t => raceStep t s) s

-- Helper lemmas about the finally block and outcome projections.

lemma finalizeTemp_none (env : HandlerEnv) (h : env.unlinkFails = false)
    (file : Option (List Nat)) : finalizeTemp env file = none := by
  cases file <;> simp [finalizeTemp, h]

lemma applyFinally_response (env : HandlerEnv) (o : HandlerOutcome) :
    (applyFinally env o).response = o.response := by
  unfold applyFinally; split <;> rfl

lemma applyFinally_wrapper (env : HandlerEnv) (o : HandlerOutcome) :
    (applyFinally env o).wrapper = o.wrapper := by
  unfold applyFinally; split <;> rfl

lemma applyFinally_tempCreated (env : HandlerEnv) (o : HandlerOutcome) :
    (applyFinally env o).tempCreated = o.tempCreated := by
  unfold applyFinally; split <;> rfl

lemma applyFinally_sysInvoked (env : HandlerEnv) (o : HandlerOutcome) :
    (applyFinally env o).sysInvoked = o.sysInvoked := by
  unfold applyFinally; split <;> rfl

lemma applyFinally_neuralInvoked (env : HandlerEnv) (o : HandlerOutcome) :
    (applyFinally env o).neuralInvoked = o.neuralInvoked := by
  unfold applyFinally; split <;> rfl

lemma afterBackend_tempCreated (e : Engine) (wst : WrapperState)
    (pr : Option (Nat × Int)) (f : Option (List Nat)) (a b : Bool) :
    (afterBackend e wst pr f a b).tempCreated = true := by
  unfold afterBackend; cases f with
  | none => rfl
  | some bs => by_cases h : bs.length = 0 <;> simp [h]

lemma afterBackend_sysInvoked (e : Engine) (wst : WrapperState)
    (pr : Option (Nat × Int)) (f : Option (List Nat)) (a b : Bool) :
    (afterBackend e wst pr f a b).sysInvoked = a := by
  unfold afterBackend; cases f with
  | none => rfl
  | some bs => by_cases h : bs.length = 0 <;> simp [h]

lemma handleCore_tempCreated (req : SynthesisRequest) (st : WrapperState)
    (ne : NeuralEnv) (se : SystemEnv) (pr : Option (Nat × Int)) :
    (handleCore req st ne se pr).tempCreated = !(isBlank req.text) := by
  unfold handleCore
  cases h : isBlank req.text with
  | true => simp [h]
  | false =>
    simp only [h, Bool.false_eq_true, if_false, Bool.not_false]
    cases req.engine with
    | styletts2 =>
      cases hres : (wrapperSynthesize ne st (some [])).result with
      | error e => cases e <;> simp [hres, h]
      | ok u => simp [hres, afterBackend_tempCreated, h]
    | system =>
      cases hres : se.result with
      | error e => simp [hres, h]
      | ok u => simp [hres, afterBackend_tempCreated, h]

lemma handleCore_file_of_empty (req : SynthesisRequest) (st : WrapperState)
    (ne : NeuralEnv) (se : SystemEnv) (pr : Option (Nat × Int))
    (h : isBlank req.text = true) : (handleCore req st ne se pr).file = none := by
  unfold handleCore; simp [h]

lemma synth_file_none (req : SynthesisRequest) (st : WrapperState)
    (env : HandlerEnv) (h : env.unlinkFails = false) :
    (handleSynthesize req st env).file = none := by
  unfold handleSynthesize applyFinally
  by_cases hc : (handleCore req st env.neural env.system env.probe).tempCreated = true
  · simp [hc, finalizeTemp_none env h]
  · rw [handleCore_tempCreated] at hc
    have ht : isBlank req.text = true := by
      cases h' : isBlank req.text
      · rw [h'] at hc; simp at hc
      · rfl
    simp [handleCore_tempCreated, ht, handleCore_file_of_empty _ _ _ _ _ ht]

lemma response_ignores_unlink (req : SynthesisRequest) (st : WrapperState)
    (env : HandlerEnv) (b : Bool) :
    (handleSynthesize req st { env with unlinkFails := b }).response =
      (handleSynthesize req st env).response := by
  rcases env with ⟨ne, se, pr, uf⟩
  unfold handleSynthesize
  rw [applyFinally_response, applyFinally_response]

-- Base64 round-trip.

lemma b64CharInv_b64Char : ∀ n < 64, b64CharInv (b64Char n) = n := by decide

lemma b64Char_ne_pad : ∀ n < 64, b64Char n ≠ '=' := by decide

theorem b64_decode_encode : ∀ bs : List Nat, (∀ b ∈ bs, b < 256) →
    b64DecodeChunks (b64EncodeChunks bs) = bs
  | [], _ => rfl
  | [b0], h => by
    have h0 : b0 < 256 := h b0 (by simp)
    show b64DecodeChunks
      [b64Char (b0 / 4), b64Char (b0 % 4 * 16), '=', '='] = [b0]
    rw [b64DecodeChunks, if_pos rfl]
    rw [b64CharInv_b64Char _ (by omega), b64CharInv_b64Char _ (by omega)]
    simp only [List.cons.injEq, and_true]
    omega
  | [b0, b1], h => by
    have h0 : b0 < 256 := h b0 (by simp)
    have h1 : b1 < 256 := h b1 (by simp)
    show b64DecodeChunks
      [b64Char (b0 / 4), b64Char (b0 % 4 * 16 + b1 / 16),
       b64Char (b1 % 16 * 4), '='] = [b0, b1]
    rw [b64DecodeChunks, if_neg (b64Char_ne_pad _ (by omega)), if_pos rfl]
    rw [b64CharInv_b64Char _ (by omega), b64CharInv_b64Char _ (by omega),
      b64CharInv_b64Char _ (by omega)]
    simp only [List.cons.injEq, and_true]
    omega
  | b0 :: b1 :: b2 :: rest, h => by
    have h0 : b0 < 256 := h b0 (by simp)
    have h1 : b1 < 256 := h b1 (by simp)
    have h2 : b2 < 256 := h b2 (by simp)
    have ih := b64_decode_encode rest (fun b hb => h b (by simp [hb]))
    show b64DecodeChunks
      (b64Char (b0 / 4) :: b64Char (b0 % 4 * 16 + b1 / 16) ::
       b64Char (b1 % 16 * 4 + b2 / 64) :: b64Char (b2 % 64) ::
       b64EncodeChunks rest) = b0 :: b1 :: b2 :: rest
    rw [b64DecodeChunks, if_neg (b64Char_ne_pad _ (by omega)),
      if_neg (b64Char_ne_pad _ (by omega))]
    rw [b64CharInv_b64Char _ (by omega), b64CharInv_b64Char _ (by omega),
      b64CharInv_b64Char _ (by omega), b64CharInv_b64Char _ (by omega)]
    rw [ih]
    simp only [List.cons.injEq, and_true]
    omega

theorem base64_roundtrip (bs : List Nat) (h : ∀ b ∈ bs, b < 256) :
    base64Decode (base64Encode bs) = bs :=
  b64_decode_encode bs h

-- Concrete sample environments used by witnesses.

/-- Sample environment: styletts2 not importable, SAPI adapter succeeds
writing four bytes, probe fails, unlink succeeds. -/
def envNoNeural : HandlerEnv :=
  { neural := { importOk := false, constructResult := .ok (),
                inferenceResult := .ok (), inferenceFile := none },
    system := { result := .ok (), fileAfter := some [82, 73, 70, 70] },
    probe := none,
    unlinkFails := false }

/-- Sample environment: the SAPI adapter raises a generic exception. -/
def envSysBoom : HandlerEnv :=
  { envNoNeural with system := { result := .error (.other "boom"), fileAfter := some [] } }

/-- Sample environment: the SAPI adapter returns but leaves a
zero-byte file. -/
def envEmptyOut : HandlerEnv :=
  { envNoNeural with system := { result := .ok (), fileAfter := some [] } }

/-- Sample environment: successful synthesis with a working probe. -/
def envWav : HandlerEnv :=
  { envNoNeural with probe := some (22050, 1) }

lemma wrapperLoad_ok (env : NeuralEnv) (st' : WrapperState)
    (h : wrapperLoad env = .ok st') : st' = ⟨some (), true⟩ := by
  unfold wrapperLoad at h
  split at h
  · split at h
    · injection h with h'; exact h'.symm
    · exact Except.noConfusion h
    · exact Except.noConfusion h
  · exact Except.noConfusion h

/-- C3: a `POST /synthesize` request whose text is empty or consists only
of whitespace is answered HTTP 400 `"Text cannot be empty"` for any
engine selector; the validation runs before the temp file is created, so
no temporary file exists afterwards and neither backend adapter is
invoked. -/
theorem c3_empty_text_400 (req : SynthesisRequest) (st : WrapperState)
    (env : HandlerEnv) (h : isBlank req.text = true) :
    (handleSynthesize req st env).response = .error 400 "Text cannot be empty" ∧
    (handleSynthesize req st env).file = none ∧
    (handleSynthesize req st env).tempCreated = false ∧
    (handleSynthesize req st env).sysInvoked = false ∧
    (handleSynthesize req st env).neuralInvoked = false := by
  unfold handleSynthesize applyFinally handleCore
  simp [h]

/-- Witness for C3 at the concrete whitespace text `"  "` with engine
`styletts2`. -/
theorem c3_empty_text_400_witness :
    (handleSynthesize ⟨"  ", .styletts2⟩ initWrapper envNoNeural).response =
      Response.error 400 "Text cannot be empty" :=
  (c3_empty_text_400 ⟨"  ", .styletts2⟩ initWrapper envNoNeural (by decide)).1

/-- C5: whenever `os.unlink` does not itself fail, the temp file is gone
after the handler returns, on every exit path (success, backend failure,
empty-output failure, probe failure); and the deletion is best-effort —
an unlink failure is swallowed, leaving the response unchanged. -/
theorem c5_temp_lifecycle (req : SynthesisRequest) (st : WrapperState)
    (env : HandlerEnv) (h : env.unlinkFails = false) :
    (handleSynthesize req st env).file = none ∧
    ∀ b : Bool, (handleSynthesize req st { env with unlinkFails := b }).response =
      (handleSynthesize req st env).response :=
  ⟨synth_file_none req st env h, fun b => response_ignores_unlink req st env b⟩

/-- Witness for C5 at a concrete successful system-engine request. -/
theorem c5_temp_lifecycle_witness :
    (handleSynthesize ⟨"hello", .system⟩ initWrapper envNoNeural).file = none :=
  (c5_temp_lifecycle ⟨"hello", .system⟩ initWrapper envNoNeural rfl).1

/-- C7: `GET /health` always lists `"system"` among available engines,
and lists `"styletts2"` exactly when the `import styletts2` probe — run
fresh on the call, never cached — succeeds. -/
theorem c7_health_available_engines (importOk : Bool) :
    "system" ∈ (health_check importOk).available_engines ∧
    ("styletts2" ∈ (health_check importOk).available_engines ↔ importOk = true) := by
  cases importOk <;> decide

/-- C9 (refuted by the code): the lazy-load prologue
`if not self.ready: self.load()` takes no lock, so the `ready` check and
the load are separate non-atomic steps.  Interleaving two first-use
callers as t1-check, t2-check, t1-load, t2-load completes both threads
with two loads performed — the claimed "at most one load" is violated —
while a serialized schedule performs a single load. -/
theorem c9_unguarded_race :
    (runSched [Tid.t1, Tid.t2, Tid.t1, Tid.t2] raceInit).loadCount = 2 ∧
    (runSched [Tid.t1, Tid.t2, Tid.t1, Tid.t2] raceInit).pc1 = ThreadPC.done ∧
    (runSched [Tid.t1, Tid.t2, Tid.t1, Tid.t2] raceInit).pc2 = ThreadPC.done ∧
    (runSched [Tid.t1, Tid.t1, Tid.t2] raceInit).loadCount = 1 := by decide

/-- C10: the neural wrapper preserves `ready → model set`: a failing
load leaves the state unchanged (so `ready` stays false, the model stays
unset, and the next synthesize call attempts the load again), a
successful load sets both `model` and `ready`, and a call finding
`ready` true never attempts a load. -/
theorem c10_ready_implies_model (st : WrapperState) (env : NeuralEnv)
    (file : Option (List Nat)) (hinv : st.ready = true → st.model = some ()) :
    ((wrapperSynthesize env st file).state.ready = true →
      (wrapperSynthesize env st file).state.model = some ()) ∧
    (st.ready = false → ∀ e, wrapperLoad env = .error e →
      (wrapperSynthesize env st file).state = st ∧
      (wrapperSynthesize env st file).result = .error e ∧
      (wrapperSynthesize env st file).loadAttempted = true) ∧
    (st.ready = true → (wrapperSynthesize env st file).loadAttempted = false) ∧
    (st.ready = false → ∀ st', wrapperLoad env = .ok st' →
      (wrapperSynthesize env st file).state.ready = true ∧
      (wrapperSynthesize env st file).state.model = some ()) := by
  cases hr : st.ready with
  | true =>
    have hw : wrapperSynthesize env st file =
        { result := env.inferenceResult, state := st,
          file := env.inferenceFile, loadAttempted := false } := by
      simp [wrapperSynthesize, hr]
    rw [hw]
    exact ⟨fun _ => hinv hr, fun hf => absurd hf (by decide),
      fun _ => rfl, fun hf => absurd hf (by decide)⟩
  | false =>
    cases hl : wrapperLoad env with
    | error e =>
      have hw : wrapperSynthesize env st file =
          { result := .error e, state := st, file := file,
            loadAttempted := true } := by
        simp [wrapperSynthesize, hr, hl]
      rw [hw]
      refine ⟨?_, ?_, ?_, ?_⟩
      · exact hinv
      · intro _ e' he'
        injection he' with h'
        exact ⟨rfl, h' ▸ rfl, rfl⟩
      · intro hf; exact absurd hf (by decide)
      · intro _ st' hst'; exact Except.noConfusion hst'
    | ok st' =>
      have hshape := wrapperLoad_ok env st' hl
      subst hshape
      have hw : wrapperSynthesize env st file =
          { result := env.inferenceResult, state := ⟨some (), true⟩,
            file := env.inferenceFile, loadAttempted := true } := by
        simp [wrapperSynthesize, hr, hl]
      rw [hw]
      refine ⟨fun _ => rfl, ?_, ?_, ?_⟩
      · intro _ e' he'; exact Except.noConfusion he'
      · intro hf; exact absurd hf (by decide)
      · intro _ st'' hst''; exact ⟨rfl, rfl⟩

/-- Witness for C10: first use with the package missing attempts (and
fails) the load. -/
theorem c10_ready_implies_model_witness :
    (wrapperSynthesize envNoNeural.neural initWrapper none).state = initWrapper ∧
    (wrapperSynthesize envNoNeural.neural initWrapper none).loadAttempted = true :=
  have h := (c10_ready_implies_model initWrapper envNoNeural.neural none
    (by intro h'; exact Bool.noConfusion h')).2.1 rfl
    (.importError "StyleTTS2 not installed") rfl
  ⟨h.1, h.2.2⟩

lemma afterBackend_neuralInvoked (e : Engine) (wst : WrapperState)
    (pr : Option (Nat × Int)) (f : Option (List Nat)) (a b : Bool) :
    (afterBackend e wst pr f a b).neuralInvoked = b := by
  unfold afterBackend; cases f with
  | none => rfl
  | some bs => by_cases h : bs.length = 0 <;> simp [h]

lemma system_dispatch (text : String) (st : WrapperState) (env : HandlerEnv)
    (ht : isBlank text = false) :
    (handleSynthesize ⟨text, .system⟩ st env).sysInvoked = true ∧
    (handleSynthesize ⟨text, .system⟩ st env).neuralInvoked = false ∧
    ∀ e, env.system.result = .error e →
      (handleSynthesize ⟨text, .system⟩ st env).response = .error 500 e.toMsg := by
  unfold handleSynthesize
  rw [applyFinally_sysInvoked, applyFinally_neuralInvoked, applyFinally_response]
  unfold handleCore
  cases hres : env.system.result with
  | error e =>
    simp only [ht, Bool.false_eq_true, if_false, hres]
    refine ⟨?_, ?_, ?_⟩
    · trivial
    · trivial
    · intro e' he'
      cases he'
      rfl
  | ok u =>
    simp only [ht, Bool.false_eq_true, if_false, hres]
    refine ⟨?_, ?_, ?_⟩
    · exact afterBackend_sysInvoked _ _ _ _ _ _
    · exact afterBackend_neuralInvoked _ _ _ _ _ _
    · intro e' he'
      exact Except.noConfusion he'

/-- C1: a `POST /synthesize` request with engine `"styletts2"` made while
the wrapper is not yet loaded and the styletts2 package cannot be
imported is answered HTTP 503 with detail `"StyleTTS2 not installed"`
(not 500); every non-`ImportError` exception raised by the neural
backend is answered HTTP 500 carrying the exception's message. -/
theorem c1_styletts2_503 (text : String) (st : WrapperState)
    (env : HandlerEnv) (ht : isBlank text = false) :
    ((st.ready = false ∧ env.neural.importOk = false) →
      (handleSynthesize ⟨text, .styletts2⟩ st env).response =
        .error 503 "StyleTTS2 not installed") ∧
    (∀ m, (wrapperSynthesize env.neural st (some [])).result = .error (.other m) →
      (handleSynthesize ⟨text, .styletts2⟩ st env).response = .error 500 m) := by
  constructor
  · rintro ⟨h1, h2⟩
    have hw : wrapperSynthesize env.neural st (some []) =
        { result := .error (.importError "StyleTTS2 not installed"),
          state := st, file := some [], loadAttempted := true } := by
      simp [wrapperSynthesize, wrapperLoad, h1, h2]
    unfold handleSynthesize
    rw [applyFinally_response]
    unfold handleCore
    simp [ht, hw]
  · intro m hm
    unfold handleSynthesize
    rw [applyFinally_response]
    unfold handleCore
    simp [ht, hm]

/-- Witness for C1: first use with the package missing yields 503. -/
theorem c1_styletts2_503_witness :
    (handleSynthesize ⟨"hi", .styletts2⟩ initWrapper envNoNeural).response =
      Response.error 503 "StyleTTS2 not installed" :=
  (c1_styletts2_503 "hi" initWrapper envNoNeural (by decide)).1 ⟨rfl, rfl⟩

/-- C2 counterexample: the request with the unrecognized engine value
`"espeak"` (which is not `"styletts2"`) is rejected by the pydantic
`Literal` validation with HTTP 422; the system-voice adapter is never
invoked and no temp file is created, contradicting the claim that every
non-`"styletts2"` selector is routed to the system adapter. -/
theorem c2_unrecognized_engine_not_routed :
    (handleRaw "hello" (some "espeak") initWrapper envNoNeural).sysInvoked = false ∧
    (handleRaw "hello" (some "espeak") initWrapper envNoNeural).response.status = 422 ∧
    (handleRaw "hello" (some "espeak") initWrapper envNoNeural).tempCreated = false := by
  refine ⟨rfl, rfl, rfl⟩

/-- C2 (amended): a request whose engine selector parses to `"system"` —
the explicit value or the omitted-field default — is routed to the
system-voice adapter, and that adapter's failures map to the generic
HTTP 500 with `str(e)`; a selector outside the `Literal` is rejected
with HTTP 422 by request validation and reaches no adapter. -/
theorem c2_system_dispatch (text : String) (raw : Option String)
    (st : WrapperState) (env : HandlerEnv) (ht : isBlank text = false) :
    ((raw = none ∨ raw = some "system") →
      (handleRaw text raw st env).sysInvoked = true ∧
      (handleRaw text raw st env).neuralInvoked = false ∧
      ∀ e, env.system.result = .error e →
        (handleRaw text raw st env).response = .error 500 e.toMsg) ∧
    (parseEngine raw = none →
      (handleRaw text raw st env).response.status = 422 ∧
      (handleRaw text raw st env).sysInvoked = false ∧
      (handleRaw text raw st env).neuralInvoked = false ∧
      (handleRaw text raw st env).tempCreated = false) := by
  constructor
  · intro hr
    have route : handleRaw text raw st env = handleSynthesize ⟨text, .system⟩ st env := by
      rcases hr with rfl | rfl <;> rfl
    rw [route]
    exact system_dispatch text st env ht
  · intro hp
    unfold handleRaw
    rw [hp]
    exact ⟨rfl, rfl, rfl, rfl⟩

/-- Witness for C2's amended theorem: the default selector routes to the
failing system adapter and yields 500 `"boom"`. -/
theorem c2_system_dispatch_witness :
    (handleRaw "hi" none initWrapper envSysBoom).response =
      Response.error 500 "boom" :=
  ((c2_system_dispatch "hi" none initWrapper envSysBoom (by decide)).1
    (Or.inl rfl)).2.2 (.other "boom") rfl

/-- C4: when the selected backend returns without raising but the output
file is missing or has size zero, the handler answers HTTP 500 with the
`"Audio generation failed (empty output)"` message and (unlink
permitting) the temporary file is removed — shown for both the system
and the neural backend. -/
theorem c4_empty_output_500 (text : String) (st : WrapperState)
    (env : HandlerEnv) (ht : isBlank text = false)
    (hu : env.unlinkFails = false) :
    ((env.system.result = .ok () ∧
        (env.system.fileAfter = none ∨ env.system.fileAfter = some [])) →
      (handleSynthesize ⟨text, .system⟩ st env).response =
        .error 500 "Audio generation failed (empty output)" ∧
      (handleSynthesize ⟨text, .system⟩ st env).file = none) ∧
    (((wrapperSynthesize env.neural st (some [])).result = .ok () ∧
        ((wrapperSynthesize env.neural st (some [])).file = none ∨
          (wrapperSynthesize env.neural st (some [])).file = some [])) →
      (handleSynthesize ⟨text, .styletts2⟩ st env).response =
        .error 500 "Audio generation failed (empty output)" ∧
      (handleSynthesize ⟨text, .styletts2⟩ st env).file = none) := by
  constructor
  · rintro ⟨hok, hf⟩
    refine ⟨?_, synth_file_none _ _ _ hu⟩
    unfold handleSynthesize
    rw [applyFinally_response]
    unfold handleCore
    rcases hf with hf | hf <;> simp [ht, hok, hf, afterBackend]
  · rintro ⟨hok, hf⟩
    refine ⟨?_, synth_file_none _ _ _ hu⟩
    unfold handleSynthesize
    rw [applyFinally_response]
    unfold handleCore
    rcases hf with hf | hf <;> simp [ht, hok, hf, afterBackend]

/-- Witness for C4: the system backend succeeds but leaves a zero-byte
file. -/
theorem c4_empty_output_500_witness :
    (handleSynthesize ⟨"hi", .system⟩ initWrapper envEmptyOut).response =
      Response.error 500 "Audio generation failed (empty output)" ∧
    (handleSynthesize ⟨"hi", .system⟩ initWrapper envEmptyOut).file = none :=
  (c4_empty_output_500 "hi" initWrapper envEmptyOut (by decide) rfl).1
    ⟨rfl, Or.inr rfl⟩

/-- C6: on every successful response — whichever backend was selected —
the `audio` field is the base64 encoding of exactly the bytes the
backend adapter wrote to the file (the service reads the whole file back
unmodified), and decoding that field returns those bytes: in particular
the decoded size equals the size of the written file. -/
theorem c6_audio_roundtrip (text : String) (st : WrapperState)
    (env : HandlerEnv) (bs : List Nat) (ht : isBlank text = false)
    (hne : bs ≠ [])
    (hbytes : ∀ b ∈ bs, b < 256) :
    ((env.system.result = .ok () ∧ env.system.fileAfter = some bs) →
      ∃ sr d, (handleSynthesize ⟨text, .system⟩ st env).response =
        .ok (base64Encode bs) sr d .system) ∧
    (((wrapperSynthesize env.neural st (some [])).result = .ok () ∧
        (wrapperSynthesize env.neural st (some [])).file = some bs) →
      ∃ sr d, (handleSynthesize ⟨text, .styletts2⟩ st env).response =
        .ok (base64Encode bs) sr d .styletts2) ∧
    base64Decode (base64Encode bs) = bs ∧
    (base64Decode (base64Encode bs)).length = bs.length := by
  have hlen : ¬ bs.length = 0 := by
    intro h0
    exact hne (List.length_eq_zero.mp h0)
  refine ⟨?_, ?_, base64_roundtrip bs hbytes, by rw [base64_roundtrip bs hbytes]⟩
  · rintro ⟨hok, hfile⟩
    refine ⟨(match env.probe with | some p => p.1 | none => 24000),
      (match env.probe with | some p => p.2 | none => 0), ?_⟩
    unfold handleSynthesize
    rw [applyFinally_response]
    unfold handleCore afterBackend
    simp [ht, hok, hfile, hlen]
  · rintro ⟨hok, hfile⟩
    refine ⟨(match env.probe with | some p => p.1 | none => 24000),
      (match env.probe with | some p => p.2 | none => 0), ?_⟩
    unfold handleSynthesize
    rw [applyFinally_response]
    unfold handleCore afterBackend
    simp [ht, hok, hfile, hlen]

/-- Sample environment: the styletts2 package imports, the model loads
and inference succeeds, writing four bytes. -/
def envNeuralWav : HandlerEnv :=
  { neural := { importOk := true, constructResult := .ok (),
                inferenceResult := .ok (), inferenceFile := some [82, 73, 70, 70] },
    system := { result := .ok (), fileAfter := some [82, 73, 70, 70] },
    probe := some (24000, 2),
    unlinkFails := false }

/-- Witness for C6 at the concrete four-byte file `[82, 73, 70, 70]`,
exercising the styletts2 success path and the decode round-trip. -/
theorem c6_audio_roundtrip_witness :
    (∃ sr d, (handleSynthesize ⟨"hi", Engine.styletts2⟩ initWrapper envNeuralWav).response =
      Response.ok (base64Encode [82, 73, 70, 70]) sr d Engine.styletts2) ∧
    base64Decode (base64Encode [82, 73, 70, 70]) = [82, 73, 70, 70] :=
  have h := c6_audio_roundtrip "hi" initWrapper envNeuralWav [82, 73, 70, 70]
    (by decide) (by decide) (by decide)
  ⟨h.2.1 ⟨rfl, rfl⟩, h.2.2.1⟩

lemma find_eq_some_decomp {α : Type} (p : α → Bool) :
    ∀ (l : List α) (v : α), l.find? p = some v →
      p v = true ∧ ∃ l₁ l₂, l = l₁ ++ v :: l₂ ∧ ∀ u ∈ l₁, p u = false
  | [], v, h => by simp [List.find?] at h
  | a :: l, v, h => by
    cases ha : p a with
    | true =>
      rw [List.find?_cons_of_pos _ ha] at h
      injection h with h'
      subst h'
      exact ⟨ha, [], l, rfl, by simp⟩
    | false =>
      rw [List.find?_cons_of_neg _ (by simp [ha])] at h
      obtain ⟨hp, l₁, l₂, heq, hall⟩ := find_eq_some_decomp p l v h
      refine ⟨hp, a :: l₁, l₂, by rw [heq]; rfl, ?_⟩
      intro u hu
      rcases List.mem_cons.mp hu with rfl | hu'
      · exact ha
      · exact hall u hu'

/-- C8: `SystemTTS.synthesize` selects the first enumerated voice whose
description contains `"zira"` or `"female"` case-insensitively; when no
description matches it keeps the engine's default voice; and it sets a
speaking rate (1) strictly faster than the engine default (0). -/
theorem c8_voice_selection (voices : List String) :
    ((selectVoiceConfig voices).voice = none ↔
      ∀ v ∈ voices, descMatches v = false) ∧
    (∀ v, (selectVoiceConfig voices).voice = some v →
      descMatches v = true ∧
      ∃ l₁ l₂, voices = l₁ ++ v :: l₂ ∧ ∀ u ∈ l₁, descMatches u = false) ∧
    (selectVoiceConfig voices).rate = 1 ∧
    sapiDefaultRate < (selectVoiceConfig voices).rate := by
  refine ⟨?_, ?_, rfl, by simp [selectVoiceConfig, sapiDefaultRate]⟩
  · simp [selectVoiceConfig, List.find?_eq_none]
  · intro v hv
    exact find_eq_some_decomp descMatches voices v hv

/-- Witness for C8 at a concrete two-voice enumeration where the second
description matches case-insensitively. -/
theorem c8_voice_selection_witness :
    descMatches "Microsoft Zira Desktop" = true ∧
    sapiDefaultRate <
      (selectVoiceConfig ["Microsoft David Desktop", "Microsoft Zira Desktop"]).rate :=
  ⟨((c8_voice_selection ["Microsoft David Desktop", "Microsoft Zira Desktop"]).2.1
      "Microsoft Zira Desktop" (by decide)).1,
    (c8_voice_selection ["Microsoft David Desktop", "Microsoft Zira Desktop"]).2.2.2⟩
